import Mathlib

/-!
Verification of the hand-tracking jsPsych plugin (`src/plugin.ts`, recording
variant) and its static-image variant.

The trial body is embedded as an explicit state machine: `TrialState` carries
the DOM-observable pieces of state (status text, canvas border, button
disabled flags), the promise/callback bookkeeping of the browser event loop
(pending `startVideo` continuation, pending `requestAnimationFrame` callback,
in-flight `model.detect` calls), and instrumentation counters (number of
`detect`, `finishTrial`, recorder calls).  `step` executes one event-loop
turn; because the page is single threaded, every handler body runs atomically
inside its event.

Modelling assumptions, taken from the plugin's external collaborators:
* `jsPsych.finishTrial` unmounts the display element, so button clicks after
  the trial has finished are no-ops (`finished` guards every click event);
* a `model.detect` call issued after `model.dispose()` can only reject, while
  a call issued on the live model may resolve or reject (the in-flight flag
  records liveness at issue time); rejections are never caught by the plugin.
-/

namespace HandTracking

/-- One entry of the prediction sequence returned by `model.detect`: a numeric
`class` field (`cls`; the value 5 is the no-hand sentinel) and a textual
`label` (used by the static-image variant). -/
structure Prediction where
  cls : Int
  label : String
deriving DecidableEq

/-- Embedding of `validPositioning` (plugin.ts lines 130-138): count the
predictions whose `class` field differs from 5 and report whether more than
one was found. -/
def validPositioning (predictions : List Prediction) : Bool :=
  let handCount : Nat :=
    predictions.foldl (fun acc p => if p.cls ≠ 5 then acc + 1 else acc) 0
  decide (handCount > 1)

/-- The `trialData` record built at trial start and handed to
`jsPsych.finishTrial` (plugin.ts lines 42-45). -/
structure TrialData where
  trial : String
  trialDuration : Nat
deriving DecidableEq

/-- Event-loop state of one recording-variant trial, as observable after the
setup phase (model loaded, camera acquired, buttons mounted). -/
structure TrialState where
  /-- current value of the `performance.now()` clock -/
  now : Nat
  /-- the `startTime` constant captured at trial start -/
  startTime : Nat
  /-- the mutable `trialData` record -/
  trialData : TrialData
  /-- `status.textContent` -/
  statusText : String
  /-- `canvas.style.border` -/
  borderColor : String
  /-- canvas visibility toggled by the Show / Hide button -/
  canvasVisible : Bool
  /-- the `.then` continuation of `handTrack.startVideo` has not yet run -/
  svPending : Bool
  /-- a `requestAnimationFrame(runDetection)` callback is pending -/
  rafScheduled : Bool
  /-- in-flight `model.detect` promises; the flag records whether the call was
  issued before `model.dispose()` (true = issued on the live model) -/
  detectInFlight : List Bool
  /-- number of `model.detect` invocations so far -/
  detectCalls : Nat
  /-- number of `model.renderPredictions` invocations so far -/
  renderCalls : Nat
  /-- `model.dispose()` has been called -/
  disposed : Bool
  /-- `handTrack.stopVideo` has been called -/
  videoStopped : Bool
  /-- the `onFinish` teardown has run -/
  finished : Bool
  /-- number of `jsPsych.finishTrial` invocations -/
  finishCalls : Nat
  /-- value of the clock when `finishTrial` ran -/
  finishTime : Nat
  /-- `btnStart.disabled` -/
  btnStartDisabled : Bool
  /-- `btnStop.disabled` -/
  btnStopDisabled : Bool
  /-- number of `recorder.startRecording()` invocations -/
  startRecordingCalls : Nat
  /-- the `stopRecording` completion callback has not yet run -/
  stopRecordingPending : Bool
  /-- number of `recorder.stopRecording(...)` invocations -/
  stopRecordingCalls : Nat
  /-- number of `invokeSaveAsDialog` invocations -/
  saveDialogCalls : Nat
  /-- `recorder.destroy()` has been called -/
  recorderDestroyed : Bool
deriving DecidableEq

/-- Events delivered by the browser event loop to this trial. -/
inductive Event where
  /-- the wall clock advances by `n` milliseconds -/
  | tick (n : Nat)
  /-- the promise of `handTrack.startVideo` resolves with success flag `ok` -/
  | svResolve (ok : Bool)
  /-- a pending `requestAnimationFrame(runDetection)` callback fires -/
  | rafFire
  /-- an in-flight live `model.detect` promise resolves with `preds` -/
  | detectResolve (preds : List Prediction)
  /-- an in-flight `model.detect` promise rejects -/
  | detectReject
  /-- the participant clicks the Show / Hide Video button -/
  | clickHide
  /-- the participant clicks the Start Recording button -/
  | clickStart
  /-- the participant clicks the Stop Recording button -/
  | clickStop
  /-- the `recorder.stopRecording` completion callback fires -/
  | stopRecorderResolve
  /-- the participant clicks the End Experiment button -/
  | clickEnd
deriving DecidableEq

/-- The body of `runDetection` up to its first suspension point: it invokes
`model.detect(video)`, leaving a promise in flight whose continuation is the
`.then` block (plugin.ts lines 102-103). -/
def issueDetect (s : TrialState) : TrialState :=
  { s with
    detectCalls := s.detectCalls + 1
    detectInFlight := s.detectInFlight ++ [!s.disposed] }

/-- The `.then` continuation of `model.detect` (plugin.ts lines 103-114):
update status text and canvas border from `validPositioning`, render the
predictions, and schedule the next `runDetection` animation frame. -/
def detectContinuation (preds : List Prediction) (s : TrialState) : TrialState :=
  { s with
    statusText :=
      if validPositioning preds then "Two hands visible: ✅"
      else "Two hands visible: 🚫"
    borderColor :=
      if validPositioning preds then "lightgreen 5px solid"
      else "red 5px solid"
    renderCalls := s.renderCalls + 1
    rafScheduled := true }

/-- `finishTrial` (plugin.ts lines 54-66): compute the duration, store it in
`trialData`, and invoke `jsPsych.finishTrial`. -/
def finishTrial (s : TrialState) : TrialState :=
  { s with
    trialData := { s.trialData with trialDuration := s.now - s.startTime }
    finishCalls := s.finishCalls + 1
    finishTime := s.now
    finished := true }

/-- `onFinish` (plugin.ts lines 143-147): stop the video, dispose the model,
and finish the trial. -/
def onFinish (s : TrialState) : TrialState :=
  finishTrial { s with videoStopped := true, disposed := true }

/-- The `btnStart.onclick` handler body (plugin.ts lines 179-183).  Note it
inspects no recorder state: it unconditionally flips the two disabled flags
and calls `recorder.startRecording()`. -/
def btnStartHandler (s : TrialState) : TrialState :=
  { s with
    btnStopDisabled := false
    btnStartDisabled := true
    startRecordingCalls := s.startRecordingCalls + 1 }

/-- The `btnStop.onclick` handler body (plugin.ts lines 190-196): disable the
Stop button and call `recorder.stopRecording` with a completion callback. -/
def btnStopHandler (s : TrialState) : TrialState :=
  { s with
    btnStopDisabled := true
    stopRecordingCalls := s.stopRecordingCalls + 1
    stopRecordingPending := true }

/-- The completion callback passed to `recorder.stopRecording` (plugin.ts
lines 192-195): offer the blob as a download and destroy the recorder. -/
def stopRecorderCallback (s : TrialState) : TrialState :=
  { s with
    stopRecordingPending := false
    saveDialogCalls := s.saveDialogCalls + 1
    recorderDestroyed := true }

/-- The `btnHide.onclick` handler body (plugin.ts lines 161-172). -/
def btnHideHandler (s : TrialState) : TrialState :=
  { s with canvasVisible := !s.canvasVisible }

/-- One event-loop turn.  Continuations fire only when the matching promise or
callback is actually pending; button clicks are no-ops once the trial is
finished (jsPsych unmounts the display) or while the button is disabled. -/
def step (s : TrialState) (e : Event) : TrialState :=
  match e with
  | .tick n => { s with now := s.now + n }
  | .svResolve ok =>
      if s.svPending then
        if ok then issueDetect { s with svPending := false }
        else { s with svPending := false }
      else s
  | .rafFire =>
      if s.rafScheduled then issueDetect { s with rafScheduled := false } else s
  | .detectResolve preds =>
      if s.detectInFlight = [true] then
        detectContinuation preds { s with detectInFlight := [] }
      else s
  | .detectReject => { s with detectInFlight := s.detectInFlight.tail }
  | .clickHide => if s.finished then s else btnHideHandler s
  | .clickStart =>
      if s.finished || s.btnStartDisabled then s else btnStartHandler s
  | .clickStop =>
      if s.finished || s.btnStopDisabled then s else btnStopHandler s
  | .stopRecorderResolve =>
      if s.stopRecordingPending then stopRecorderCallback s else s
  | .clickEnd => if s.finished then s else onFinish s

/-- Run a sequence of event-loop turns. -/
def run (s : TrialState) (es : List Event) : TrialState :=
  es.foldl step s

/-- State right after the setup phase of `plugin.trial` (plugin.ts lines
37-205) has completed: clock at `t0`, `trialData` initialised with the
pass-through identifier, default status and border, `startVideo` continuation
pending, Stop Recording disabled, nothing yet detected or recorded. -/
def initState (trialId : String) (t0 : Nat) : TrialState :=
  { now := t0
    startTime := t0
    trialData := { trial := trialId, trialDuration := 0 }
    statusText := "Two hands visible: 🚫"
    borderColor := "black 5px solid"
    canvasVisible := true
    svPending := true
    rafScheduled := false
    detectInFlight := []
    detectCalls := 0
    renderCalls := 0
    disposed := false
    videoStopped := false
    finished := false
    finishCalls := 0
    finishTime := 0
    btnStartDisabled := false
    btnStopDisabled := true
    startRecordingCalls := 0
    stopRecordingPending := false
    stopRecordingCalls := 0
    saveDialogCalls := 0
    recorderDestroyed := false }

/-- Number of control tokens of the detection chain: a pending `startVideo`
continuation, a pending animation-frame callback, or an in-flight `detect`
promise.  The chain is started with exactly one token. -/
def tokens (s : TrialState) : Nat :=
  (if s.svPending then 1 else 0) + (if s.rafScheduled then 1 else 0) +
    s.detectInFlight.length

/-- Tokens that can still cause a future `detect` call: a disposed-model
in-flight call (flag `false`) can only reject, so it does not count. -/
def phi (s : TrialState) : Nat :=
  (if s.svPending then 1 else 0) + (if s.rafScheduled then 1 else 0) +
    s.detectInFlight.count true

theorem run_nil (s : TrialState) : run s [] = s := rfl

theorem run_cons (s : TrialState) (e : Event) (es : List Event) :
    run s (e :: es) = run (step s e) es := rfl

/-- A property preserved by every step holds along every run. -/
theorem run_preserves (P : TrialState → Prop)
    (hstep : ∀ t e, P t → P (step t e)) :
    ∀ (es : List Event) (s : TrialState), P s → P (run s es) := by
  intro es
  induction es with
  | nil => intro s h; exact h
  | cons e es ih => intro s h; exact ih (step s e) (hstep s e h)

/-- Auxiliary: the hand-count fold of `validPositioning` counts the
non-sentinel predictions. -/
theorem handCount_eq_countP (ps : List Prediction) (n : Nat) :
    ps.foldl (fun acc p => if p.cls ≠ 5 then acc + 1 else acc) n
      = n + ps.countP (fun p => decide (p.cls ≠ 5)) := by
  induction ps generalizing n with
  | nil => simp
  | cons p ps ih =>
    rw [List.foldl_cons, List.countP_cons, ih]
    by_cases h : p.cls = 5
    · simp [h]
    · simp [h]; omega

/-- C1: `validPositioning` returns true iff at least two predictions have a
class different from the sentinel 5; in particular it is false on the empty
sequence and on `[class 1, class 5]`, and true on `[class 1, class 5, class 1]`. -/
theorem C1_validPositioning_iff :
    (∀ ps : List Prediction,
      validPositioning ps = true ↔ 2 ≤ ps.countP (fun p => decide (p.cls ≠ 5)))
    ∧ validPositioning [] = false
    ∧ validPositioning [⟨1, ""⟩, ⟨5, ""⟩] = false
    ∧ validPositioning [⟨1, ""⟩, ⟨5, ""⟩, ⟨1, ""⟩] = true := by
  refine ⟨fun ps => ?_, by decide, by decide, by decide⟩
  show decide _ = true ↔ _
  rw [handCount_eq_countP, decide_eq_true_eq]
  omega

/-- Witness for C1 at the concrete three-element input from the spec. -/
theorem C1_validPositioning_iff_witness :
    validPositioning [⟨1, ""⟩, ⟨5, ""⟩, ⟨1, ""⟩] = true :=
  (C1_validPositioning_iff.1 [⟨1, ""⟩, ⟨5, ""⟩, ⟨1, ""⟩]).mpr (by decide)

/-- Bookkeeping invariant for the trial record: the identifier is the
pass-through value, the clock never runs backwards, `jsPsych.finishTrial` has
run exactly as often as teardown has happened, and on teardown the stored
duration is exactly the clock time at the finish minus the start time. -/
def FinishInv (trialId : String) (t0 : Nat) (s : TrialState) : Prop :=
  s.trialData.trial = trialId ∧ s.startTime = t0 ∧ t0 ≤ s.now ∧
    s.finishCalls = (if s.finished then 1 else 0) ∧
    (s.finished = true →
      s.trialData.trialDuration + t0 = s.finishTime ∧ s.finishTime ≤ s.now)

theorem finishInv_init (trialId : String) (t0 : Nat) :
    FinishInv trialId t0 (initState trialId t0) := by
  simp [FinishInv, initState]

theorem finishInv_step (trialId : String) (t0 : Nat) (s : TrialState)
    (e : Event) (h : FinishInv trialId t0 s) :
    FinishInv trialId t0 (step s e) := by
  obtain ⟨h1, h2, h3, h4, h5⟩ := h
  cases e <;>
    simp only [step, issueDetect, detectContinuation, onFinish, finishTrial,
      btnStartHandler, btnStopHandler, stopRecorderCallback, btnHideHandler,
      FinishInv] <;>
    (try split_ifs) <;>
    simp_all <;>
    omega

/-- C2: along any event sequence the completion callback runs at most once;
it runs exactly once as soon as the End button has been processed, the
reported record carries the trial identifier through unchanged, and its
duration is exactly the wall-clock time elapsed between trial start and the
moment the stop signal was processed (hence nonnegative). -/
theorem C2_finishTrial_once (trialId : String) (t0 : Nat) (es : List Event) :
    (run (initState trialId t0) es).finishCalls ≤ 1 ∧
    (run (initState trialId t0) es).trialData.trial = trialId ∧
    ((run (initState trialId t0) es).finished = true →
      (run (initState trialId t0) es).finishCalls = 1 ∧
      (run (initState trialId t0) es).trialData.trialDuration + t0 =
        (run (initState trialId t0) es).finishTime ∧
      t0 ≤ (run (initState trialId t0) es).finishTime) := by
  have h := run_preserves (FinishInv trialId t0) (finishInv_step trialId t0) es
    (initState trialId t0) (finishInv_init trialId t0)
  obtain ⟨h1, h2, h3, h4, h5⟩ := h
  refine ⟨by rw [h4]; split <;> omega, h1, fun hf => ?_⟩
  obtain ⟨hd, hft⟩ := h5 hf
  exact ⟨by rw [h4, if_pos hf], hd, by omega⟩

/-- Witness for C2: a trial where the clock advances 5 ms before the End
button is pressed reports duration bookkeeping consistent with 5 ms. -/
theorem C2_finishTrial_once_witness :
    (run (initState "t1" 0) [Event.tick 5, Event.clickEnd]).finishCalls = 1 ∧
    (run (initState "t1" 0) [Event.tick 5, Event.clickEnd]).trialData.trialDuration + 0 =
      (run (initState "t1" 0) [Event.tick 5, Event.clickEnd]).finishTime :=
  ⟨((C2_finishTrial_once "t1" 0 [Event.tick 5, Event.clickEnd]).2.2 (by decide)).1,
   ((C2_finishTrial_once "t1" 0 [Event.tick 5, Event.clickEnd]).2.2 (by decide)).2.1⟩

theorem count_tail_le (l : List Bool) : l.tail.count true ≤ l.count true := by
  cases l with
  | nil => simp
  | cons b t => rw [List.tail_cons, List.count_cons]; omega

theorem length_tail_le (l : List Bool) : l.tail.length ≤ l.length := by
  cases l <;> simp

/-- Each event-loop turn consumes at most the control tokens it holds: the
detection chain never duplicates itself. -/
theorem tokens_step_le (s : TrialState) (e : Event) :
    tokens (step s e) ≤ tokens s := by
  cases e <;>
    simp only [step, tokens, issueDetect, detectContinuation, onFinish,
      finishTrial, btnStartHandler, btnStopHandler, stopRecorderCallback,
      btnHideHandler] <;>
    (try split_ifs) <;>
    simp_all [List.length_append] <;>
    omega

/-- Reachable states hold at most one control token: the detection chain is a
single sequential strand. -/
theorem tokens_le_one (trialId : String) (t0 : Nat) (es : List Event) :
    tokens (run (initState trialId t0) es) ≤ 1 := by
  have h := run_preserves (fun t => tokens t ≤ 1)
    (fun t e ht => le_trans (tokens_step_le t e) ht) es (initState trialId t0)
  apply h
  simp [tokens, initState]

/-- Teardown is permanent and it disposes the model. -/
theorem finished_disposed_step (s : TrialState) (e : Event)
    (h : s.finished = true → s.disposed = true) :
    (step s e).finished = true → (step s e).disposed = true := by
  cases e <;>
    simp only [step, issueDetect, detectContinuation, onFinish, finishTrial,
      btnStartHandler, btnStopHandler, stopRecorderCallback, btnHideHandler] <;>
    (try split_ifs) <;>
    simp_all

/-- After teardown the sum of performed `detect` calls and live tokens never
increases: a disposed model can only reject, so the chain dies after at most
one further call. -/
theorem postFinish_step (s : TrialState) (e : Event)
    (hf : s.finished = true) (hd : s.disposed = true) :
    (step s e).finished = true ∧ (step s e).disposed = true ∧
      (step s e).detectCalls + phi (step s e) ≤ s.detectCalls + phi s := by
  have hct := count_tail_le s.detectInFlight
  cases e <;>
    simp only [step, phi, issueDetect, detectContinuation, onFinish,
      finishTrial, btnStartHandler, btnStopHandler, stopRecorderCallback,
      btnHideHandler, hf, hd] <;>
    (try split_ifs) <;>
    simp_all [List.count_append] <;>
    omega

/-- C3 (amended): after the End Experiment teardown has been processed, at
most one further `model.detect` call can occur — the animation-frame callback
or in-flight resolution already pending at teardown may still trigger a
single `detect` against the disposed model, whose rejection then kills the
chain for good. -/
theorem C3_after_teardown_at_most_one_detect (trialId : String) (t0 : Nat)
    (es es2 : List Event)
    (hf : (run (initState trialId t0) es).finished = true) :
    (run (run (initState trialId t0) es) es2).detectCalls ≤
      (run (initState trialId t0) es).detectCalls + 1 := by
  have htok : tokens (run (initState trialId t0) es) ≤ 1 :=
    tokens_le_one trialId t0 es
  have hfd : (run (initState trialId t0) es).finished = true →
      (run (initState trialId t0) es).disposed = true := by
    have h := run_preserves (fun t => t.finished = true → t.disposed = true)
      finished_disposed_step es (initState trialId t0) (by simp [initState])
    exact h
  have hphi : phi (run (initState trialId t0) es) ≤
      tokens (run (initState trialId t0) es) := by
    simp only [phi, tokens]
    have := List.count_le_length true (run (initState trialId t0) es).detectInFlight
    omega
  have hmain := run_preserves
    (fun t => t.finished = true ∧ t.disposed = true ∧
      t.detectCalls + phi t ≤
        (run (initState trialId t0) es).detectCalls +
          phi (run (initState trialId t0) es))
    (fun t e ht => by
      obtain ⟨a, b, c⟩ := ht
      obtain ⟨a2, b2, c2⟩ := postFinish_step t e a b
      exact ⟨a2, b2, le_trans c2 c⟩)
    es2 (run (initState trialId t0) es) ⟨hf, hfd hf, le_refl _⟩
  omega

/-- Witness for the amended C3: a trial with one completed detection frame,
then teardown; the pending animation frame fires one further detect call and
no more. -/
theorem C3_after_teardown_witness :
    (run (run (initState "t1" 0)
        [Event.svResolve true, Event.detectResolve [], Event.clickEnd])
      [Event.rafFire, Event.detectReject, Event.rafFire]).detectCalls ≤
    (run (initState "t1" 0)
        [Event.svResolve true, Event.detectResolve [], Event.clickEnd]).detectCalls + 1 :=
  C3_after_teardown_at_most_one_detect "t1" 0
    [Event.svResolve true, Event.detectResolve [], Event.clickEnd]
    [Event.rafFire, Event.detectReject, Event.rafFire] (by decide)

/-- Counterexample to C3 as stated: after a completed detection frame the
next animation-frame callback is already scheduled; pressing End Experiment
runs teardown, yet that callback still fires and issues a further
`model.detect` call (the second), contradicting "no further call to the
model's detect operation occurs". -/
theorem C3_counterexample :
    (run (initState "t1" 0)
      [Event.svResolve true, Event.detectResolve [], Event.clickEnd]).finished = true ∧
    (run (initState "t1" 0)
      [Event.svResolve true, Event.detectResolve [], Event.clickEnd]).detectCalls = 1 ∧
    (run (initState "t1" 0)
        [Event.svResolve true, Event.detectResolve [], Event.clickEnd]).rafScheduled = true ∧
    (run (initState "t1" 0)
      [Event.svResolve true, Event.detectResolve [], Event.clickEnd,
        Event.rafFire]).detectCalls = 2 := by
  decide

theorem tokens_zero_elim (s : TrialState) (h : tokens s = 0) :
    s.svPending = false ∧ s.rafScheduled = false ∧ s.detectInFlight = [] := by
  simp only [tokens] at h
  split_ifs at h <;>
    simp_all [List.length_eq_zero]

/-- Once the detection chain holds no control token, nothing ever recreates
one: no further `detect` call is issued, and neither the status text nor the
canvas border ever changes again. -/
theorem zeroTokens_step (t : TrialState) (e : Event) (h : tokens t = 0) :
    tokens (step t e) = 0 ∧ (step t e).statusText = t.statusText ∧
      (step t e).borderColor = t.borderColor ∧
      (step t e).detectCalls = t.detectCalls := by
  obtain ⟨h1, h2, h3⟩ := tokens_zero_elim t h
  cases e with
  | tick n => simp [step, tokens, h1, h2, h3]
  | svResolve ok => simp [step, tokens, h1, h2, h3]
  | rafFire => simp [step, tokens, h1, h2, h3]
  | detectResolve preds => simp [step, tokens, h1, h2, h3]
  | detectReject => simp [step, tokens, h1, h2, h3]
  | clickHide =>
      simp only [step]
      split <;> simp [btnHideHandler, tokens, h1, h2, h3]
  | clickStart =>
      simp only [step]
      split <;> simp [btnStartHandler, tokens, h1, h2, h3]
  | clickStop =>
      simp only [step]
      split <;> simp [btnStopHandler, tokens, h1, h2, h3]
  | stopRecorderResolve =>
      simp only [step]
      split <;> simp [stopRecorderCallback, tokens, h1, h2, h3]
  | clickEnd =>
      simp only [step]
      split <;> simp [onFinish, finishTrial, tokens, h1, h2, h3]

/-- Run form of `zeroTokens_step`. -/
theorem zeroTokens_run (t : TrialState) (es : List Event) (h : tokens t = 0) :
    tokens (run t es) = 0 ∧ (run t es).statusText = t.statusText ∧
      (run t es).borderColor = t.borderColor ∧
      (run t es).detectCalls = t.detectCalls := by
  have hrun := run_preserves
    (fun u => tokens u = 0 ∧ u.statusText = t.statusText ∧
      u.borderColor = t.borderColor ∧ u.detectCalls = t.detectCalls)
    (fun u e hu => by
      obtain ⟨a, b, c, d⟩ := hu
      obtain ⟨a2, b2, c2, d2⟩ := zeroTokens_step u e a
      exact ⟨a2, b2.trans b, c2.trans c, d2.trans d⟩)
    es t ⟨h, rfl, rfl, rfl⟩
  exact hrun

/-- C4: detection is strictly sequential — in every reachable state at most
one `model.detect` call is in flight, and whenever the next animation frame
is scheduled no detect call is pending (the next iteration is only scheduled
from the completion continuation of the previous call). -/
theorem length_le_tokens (s : TrialState) :
    s.detectInFlight.length ≤ tokens s := by
  simp only [tokens]
  omega

theorem raf_length_le_tokens (s : TrialState) (h : s.rafScheduled = true) :
    s.detectInFlight.length + 1 ≤ tokens s := by
  simp only [tokens, h, if_true]
  omega

theorem C4_detect_sequential (trialId : String) (t0 : Nat) (es : List Event) :
    (run (initState trialId t0) es).detectInFlight.length ≤ 1 ∧
    ((run (initState trialId t0) es).rafScheduled = true →
      (run (initState trialId t0) es).detectInFlight = []) := by
  have h := tokens_le_one trialId t0 es
  constructor
  · have := length_le_tokens (run (initState trialId t0) es)
    omega
  · intro hr
    have := raf_length_le_tokens (run (initState trialId t0) es) hr
    exact List.length_eq_zero.mp (by omega)

/-- Witness for C4: after one resolved frame the next frame is scheduled and
no detect call is in flight. -/
theorem C4_detect_sequential_witness :
    (run (initState "t1" 0) [Event.svResolve true, Event.detectResolve []]).detectInFlight = [] :=
  (C4_detect_sequential "t1" 0 [Event.svResolve true, Event.detectResolve []]).2
    (by decide)

/-- C5: the continuation of a resolved detection frame drives the status text
and canvas border as a direct two-state function of `validPositioning`:
affirmative text with a lightgreen border when two hands are visible,
negative text with a red border otherwise. -/
theorem C5_ui_two_states (s : TrialState) (preds : List Prediction)
    (h : s.detectInFlight = [true]) :
    (step s (Event.detectResolve preds)).statusText =
      (if validPositioning preds then "Two hands visible: ✅"
       else "Two hands visible: 🚫") ∧
    (step s (Event.detectResolve preds)).borderColor =
      (if validPositioning preds then "lightgreen 5px solid"
       else "red 5px solid") := by
  simp [step, h, detectContinuation]

/-- Witness for C5: a frame with two non-sentinel predictions turns the
status affirmative and the border lightgreen. -/
theorem C5_ui_two_states_witness :
    (step (run (initState "t1" 0) [Event.svResolve true])
      (Event.detectResolve [⟨1, ""⟩, ⟨2, ""⟩])).statusText =
        "Two hands visible: ✅" ∧
    (step (run (initState "t1" 0) [Event.svResolve true])
      (Event.detectResolve [⟨1, ""⟩, ⟨2, ""⟩])).borderColor =
        "lightgreen 5px solid" :=
  ⟨((C5_ui_two_states (run (initState "t1" 0) [Event.svResolve true])
      [⟨1, ""⟩, ⟨2, ""⟩] (by decide)).1).trans (by decide),
   ((C5_ui_two_states (run (initState "t1" 0) [Event.svResolve true])
      [⟨1, ""⟩, ⟨2, ""⟩] (by decide)).2).trans (by decide)⟩

/-- C8: a rejected detection call is never caught: the rejection consumes the
in-flight promise without scheduling a retry or an animation frame, writes no
error state — status text and border keep their values from the last
successful iteration — and from then on no further detect call is issued and
the UI never changes again. -/
theorem C8_reject_uncaught (s : TrialState) (b : Bool) (es : List Event)
    (h : s.detectInFlight = [b]) (hsv : s.svPending = false)
    (hraf : s.rafScheduled = false) :
    (step s Event.detectReject).statusText = s.statusText ∧
    (step s Event.detectReject).borderColor = s.borderColor ∧
    (step s Event.detectReject).detectInFlight = [] ∧
    (step s Event.detectReject).rafScheduled = false ∧
    (step s Event.detectReject).detectCalls = s.detectCalls ∧
    (run (step s Event.detectReject) es).detectCalls = s.detectCalls ∧
    (run (step s Event.detectReject) es).statusText = s.statusText ∧
    (run (step s Event.detectReject) es).borderColor = s.borderColor := by
  have hstep : step s Event.detectReject = { s with detectInFlight := [] } := by
    simp [step, h]
  have hzero : tokens (step s Event.detectReject) = 0 := by
    rw [hstep]; simp [tokens, hsv, hraf]
  obtain ⟨a, b2, c, d⟩ := zeroTokens_run (step s Event.detectReject) es hzero
  rw [hstep] at b2 c d ⊢
  exact ⟨rfl, rfl, rfl, hraf, rfl, d, b2, c⟩

/-- Witness for C8: after the first detect call rejects, a stray animation
frame and resolution event change nothing — the detect count stays at 1 and
the status keeps its default negative value. -/
theorem C8_reject_uncaught_witness :
    (run (step (run (initState "t1" 0) [Event.svResolve true])
        Event.detectReject)
      [Event.rafFire, Event.detectResolve []]).detectCalls =
      (run (initState "t1" 0) [Event.svResolve true]).detectCalls ∧
    (run (step (run (initState "t1" 0) [Event.svResolve true])
        Event.detectReject)
      [Event.rafFire, Event.detectResolve []]).statusText =
      (run (initState "t1" 0) [Event.svResolve true]).statusText :=
  ⟨(C8_reject_uncaught (run (initState "t1" 0) [Event.svResolve true]) true
      [Event.rafFire, Event.detectResolve []]
      (by decide) (by decide) (by decide)).2.2.2.2.2.1,
   (C8_reject_uncaught (run (initState "t1" 0) [Event.svResolve true]) true
      [Event.rafFire, Event.detectResolve []]
      (by decide) (by decide) (by decide)).2.2.2.2.2.2.1⟩

/-- C6: the recording toggle.  With the trial running and the Start button
enabled, clicking Start disables Start, enables Stop and invokes
`recorder.startRecording`; with the Stop button enabled, clicking Stop
disables Stop and invokes `recorder.stopRecording` with a completion callback
that offers the blob as a download and destroys the recorder.  The handler
bodies themselves inspect no recorder state: on an arbitrary state they
unconditionally fire the recorder calls, so the only guard against starting
twice or stopping while idle is the button disabled flag. -/
theorem C6_recording_toggle :
    (∀ s : TrialState, s.finished = false → s.btnStartDisabled = false →
      (step s Event.clickStart).btnStartDisabled = true ∧
      (step s Event.clickStart).btnStopDisabled = false ∧
      (step s Event.clickStart).startRecordingCalls = s.startRecordingCalls + 1) ∧
    (∀ s : TrialState, s.finished = false → s.btnStopDisabled = false →
      (step s Event.clickStop).btnStopDisabled = true ∧
      (step s Event.clickStop).stopRecordingCalls = s.stopRecordingCalls + 1 ∧
      (step s Event.clickStop).stopRecordingPending = true) ∧
    (∀ s : TrialState, s.stopRecordingPending = true →
      (step s Event.stopRecorderResolve).saveDialogCalls = s.saveDialogCalls + 1 ∧
      (step s Event.stopRecorderResolve).recorderDestroyed = true ∧
      (step s Event.stopRecorderResolve).stopRecordingPending = false) ∧
    (∀ s : TrialState,
      (btnStartHandler s).startRecordingCalls = s.startRecordingCalls + 1) ∧
    (∀ s : TrialState,
      (btnStopHandler s).stopRecordingCalls = s.stopRecordingCalls + 1) := by
  refine ⟨fun s h1 h2 => ?_, fun s h1 h2 => ?_, fun s h => ?_,
    fun s => rfl, fun s => rfl⟩
  · simp [step, h1, h2, btnStartHandler]
  · simp [step, h1, h2, btnStopHandler]
  · simp [step, h, stopRecorderCallback]

/-- Witness for C6: from the freshly set-up trial state, Start then Stop then
the recorder callback walk through the full recording cycle. -/
theorem C6_recording_toggle_witness :
    (step (initState "t1" 0) Event.clickStart).btnStartDisabled = true ∧
    (step (initState "t1" 0) Event.clickStart).startRecordingCalls = 1 ∧
    (step (step (initState "t1" 0) Event.clickStart) Event.clickStop).btnStopDisabled = true ∧
    (step (step (step (initState "t1" 0) Event.clickStart) Event.clickStop)
      Event.stopRecorderResolve).recorderDestroyed = true :=
  ⟨(C6_recording_toggle.1 (initState "t1" 0) (by decide) (by decide)).1,
   (C6_recording_toggle.1 (initState "t1" 0) (by decide) (by decide)).2.2,
   (C6_recording_toggle.2.1 (step (initState "t1" 0) Event.clickStart)
      (by decide) (by decide)).1,
   (C6_recording_toggle.2.2.1
      (step (step (initState "t1" 0) Event.clickStart) Event.clickStop)
      (by decide)).2.1⟩

/-- C9: the poll loop is entered iff `handTrack.startVideo` resolves truthy.
On a truthy flag the first `detect` call is issued at once; on a falsy flag
no detect call is ever issued and the status text keeps its default negative
value forever (no error is surfaced), yet the End Experiment button still
works and finishes the trial with the pass-through identifier and the
elapsed duration. -/
theorem C9_startVideo_gate (trialId : String) (t0 : Nat) (es : List Event)
    (n : Nat) :
    (step (initState trialId t0) (Event.svResolve true)).detectCalls = 1 ∧
    (run (step (initState trialId t0) (Event.svResolve false)) es).detectCalls = 0 ∧
    (run (step (initState trialId t0) (Event.svResolve false)) es).statusText =
      "Two hands visible: 🚫" ∧
    (run (step (initState trialId t0) (Event.svResolve false))
      [Event.tick n, Event.clickEnd]).finished = true ∧
    (run (step (initState trialId t0) (Event.svResolve false))
      [Event.tick n, Event.clickEnd]).finishCalls = 1 ∧
    (run (step (initState trialId t0) (Event.svResolve false))
      [Event.tick n, Event.clickEnd]).trialData =
      { trial := trialId, trialDuration := n } := by
  have hzero : tokens (step (initState trialId t0) (Event.svResolve false)) = 0 := by
    simp [step, initState, tokens]
  obtain ⟨hz1, hz2, hz3, hz4⟩ := zeroTokens_run
    (step (initState trialId t0) (Event.svResolve false)) es hzero
  refine ⟨?_, ?_, ?_, ?_, ?_, ?_⟩
  · simp [step, initState, issueDetect]
  · rw [hz4]; simp [step, initState]
  · rw [hz2]; simp [step, initState]
  · simp [run, step, initState, onFinish, finishTrial]
  · simp [run, step, initState, onFinish, finishTrial]
  · simp [run, step, initState, onFinish, finishTrial]

/-- Witness for C9 is not required (no propositional hypothesis), but the
quantifiers are exercised at a concrete input anyway. -/
theorem C9_startVideo_gate_witness :
    (run (step (initState "t1" 0) (Event.svResolve false))
      [Event.rafFire, Event.detectResolve [], Event.clickStart]).detectCalls = 0 ∧
    (run (step (initState "t1" 0) (Event.svResolve false))
      [Event.tick 7, Event.clickEnd]).trialData =
      { trial := "t1", trialDuration := 7 } :=
  ⟨(C9_startVideo_gate "t1" 0
      [Event.rafFire, Event.detectResolve [], Event.clickStart] 7).2.1,
   (C9_startVideo_gate "t1" 0
      [Event.rafFire, Event.detectResolve [], Event.clickStart] 7).2.2.2.2.2⟩

/-- The Start Recording button can have fired `recorder.startRecording` only
if it is now disabled, and at most once. -/
def startOnceInv (s : TrialState) : Prop :=
  s.startRecordingCalls ≤ if s.btnStartDisabled then 1 else 0

/-- Every event either leaves the Start button's fields alone, or is the one
effective Start click: it fires from an enabled button and disables it. -/
theorem startFields_step (s : TrialState) (e : Event) :
    ((step s e).startRecordingCalls = s.startRecordingCalls ∧
      (step s e).btnStartDisabled = s.btnStartDisabled) ∨
    (s.btnStartDisabled = false ∧
      (step s e).startRecordingCalls = s.startRecordingCalls + 1 ∧
      (step s e).btnStartDisabled = true) := by
  cases e <;>
    simp only [step, issueDetect, detectContinuation, onFinish, finishTrial,
      btnStartHandler, btnStopHandler, stopRecorderCallback, btnHideHandler] <;>
    (try split_ifs) <;>
    simp_all

theorem startOnceInv_step (s : TrialState) (e : Event) (h : startOnceInv s) :
    startOnceInv (step s e) := by
  rcases startFields_step s e with ⟨h1, h2⟩ | ⟨h1, h2, h3⟩
  · simp only [startOnceInv, h1, h2] at h ⊢
    exact h
  · simp only [startOnceInv, h1, Bool.false_eq_true, if_false] at h
    simp only [startOnceInv, h2, h3, if_true]
    omega

/-- Once the Start Recording button is disabled, no event re-enables it. -/
theorem btnStartDisabled_mono_step (s : TrialState) (e : Event)
    (h : s.btnStartDisabled = true) :
    (step s e).btnStartDisabled = true := by
  cases e <;>
    simp only [step, issueDetect, detectContinuation, onFinish, finishTrial,
      btnStartHandler, btnStopHandler, stopRecorderCallback, btnHideHandler] <;>
    (try split_ifs) <;>
    simp_all

/-- C10: on every reachable trial state `recorder.startRecording` has fired
at most once via the UI; once the Start button is disabled no event sequence
re-enables it, and the Stop handler leaves the Start button's disabled flag
untouched. -/
theorem C10_startRecording_at_most_once (trialId : String) (t0 : Nat)
    (es : List Event) :
    (run (initState trialId t0) es).startRecordingCalls ≤ 1 ∧
    (∀ (s2 : TrialState) (es2 : List Event), s2.btnStartDisabled = true →
      (run s2 es2).btnStartDisabled = true) ∧
    (∀ s2 : TrialState, (btnStopHandler s2).btnStartDisabled = s2.btnStartDisabled) := by
  refine ⟨?_, fun s2 es2 h2 => ?_, fun s2 => rfl⟩
  · have h := run_preserves startOnceInv startOnceInv_step es
      (initState trialId t0) (by simp [startOnceInv, initState])
    simp only [startOnceInv] at h
    split_ifs at h <;> omega
  · exact run_preserves (fun u => u.btnStartDisabled = true)
      btnStartDisabled_mono_step es2 s2 h2

/-- Witness for C10: clicking Start, Stop, then Start again still yields a
single `startRecording` call, and the Start button stays disabled. -/
theorem C10_startRecording_witness :
    (run (initState "t1" 0)
      [Event.clickStart, Event.clickStop, Event.clickStart]).startRecordingCalls ≤ 1 ∧
    (run (step (initState "t1" 0) Event.clickStart)
      [Event.clickStop, Event.stopRecorderResolve, Event.clickStart]).btnStartDisabled = true :=
  ⟨(C10_startRecording_at_most_once "t1" 0
      [Event.clickStart, Event.clickStop, Event.clickStart]).1,
   (C10_startRecording_at_most_once "t1" 0 []).2.1
      (step (initState "t1" 0) Event.clickStart)
      [Event.clickStop, Event.stopRecorderResolve, Event.clickStart] (by decide)⟩

/-- Result of one run of the static-image variant's trial body
(`src/unnamed/part_000`). -/
structure StaticResult where
  detectCalls : Nat
  statusEntries : List String
  statusText : String
  finishCalls : Nat
  trialData : TrialData
deriving DecidableEq

/-- Embedding of the static-image variant's `plugin.trial` (part_000 lines
35-85): a straight-line script that loads the model, issues exactly one
`model.detect(img)` call on the fixed test image, writes the joined
`Hand: <label>` summary of every returned prediction to the status node, and
immediately calls `finishTrial`.  `predictions` is the value the single
detect call resolved with; `elapsed` is the wall-clock time the script took
up to `finishTrial`. -/
def staticTrial (trialId : String) (predictions : List Prediction)
    (elapsed : Nat) : StaticResult :=
  let entries := predictions.map (fun p => "Hand: " ++ p.label)
  { detectCalls := 1
    statusEntries := entries
    statusText := String.intercalate ", " entries
    finishCalls := 1
    trialData := { trial := trialId, trialDuration := elapsed } }

/-- C7: the static-image variant performs exactly one detection call, writes
to the status node the comma-joined summary with one `Hand: <label>` entry
per returned prediction (every prediction's label appears), and finalizes the
trial exactly once with the pass-through identifier — with no user
interaction event in between. -/
theorem C7_static_variant (trialId : String) (predictions : List Prediction)
    (elapsed : Nat) :
    (staticTrial trialId predictions elapsed).detectCalls = 1 ∧
    (staticTrial trialId predictions elapsed).statusText =
      String.intercalate ", "
        (staticTrial trialId predictions elapsed).statusEntries ∧
    (staticTrial trialId predictions elapsed).statusEntries =
      predictions.map (fun p => "Hand: " ++ p.label) ∧
    (∀ p ∈ predictions,
      ("Hand: " ++ p.label) ∈ (staticTrial trialId predictions elapsed).statusEntries) ∧
    (staticTrial trialId predictions elapsed).finishCalls = 1 ∧
    (staticTrial trialId predictions elapsed).trialData.trial = trialId := by
  refine ⟨rfl, rfl, rfl, fun p hp => ?_, rfl, rfl⟩
  simp only [staticTrial, List.mem_map]
  exact ⟨p, hp, rfl⟩

/-- Witness for C7 at a concrete two-prediction input. -/
theorem C7_static_variant_witness :
    (staticTrial "t1" [⟨1, "open"⟩, ⟨2, "closed"⟩] 3).detectCalls = 1 ∧
    ("Hand: " ++ "open") ∈
      (staticTrial "t1" [⟨1, "open"⟩, ⟨2, "closed"⟩] 3).statusEntries :=
  ⟨(C7_static_variant "t1" [⟨1, "open"⟩, ⟨2, "closed"⟩] 3).1,
   (C7_static_variant "t1" [⟨1, "open"⟩, ⟨2, "closed"⟩] 3).2.2.2.1
      ⟨1, "open"⟩ (by decide)⟩

end HandTracking
